import Mathlib

/-!
# Verification of the GenericClient remote-proxy element

Shallow embedding of `SRC/element/generic/GenericClient.cpp`: the
DOF mapper, buffer layout, connection lifecycle, command protocol,
cache policy and response assembler, with theorems checking the
natural-language specification against the code.

Scalars carried on the wire are modelled as `Int`; only data movement,
not floating-point arithmetic, is at issue in the properties below.
-/

namespace GenericClient

/-- A numeric buffer / vector (C++ `Vector` over a `double*` region). -/
abbrev Vec := List Int

/-- A dense matrix as a list of rows (C++ `Matrix`). -/
abbrev Mat := List (List Int)

/-- Zero vector of length `n` (C++ `Vector::Zero`). -/
def vecZero (n : Nat) : Vec := List.replicate n 0

/-- Zero `r × c` matrix (C++ `Matrix::Zero`). -/
def matZero (r c : Nat) : Mat := List.replicate r (List.replicate c 0)

/-- Zero the first `k` entries of a buffer, mirroring `rMatrix->Zero()`
acting on the `numBasicDOF²`-entry front region of `rData`. -/
def vecZeroFront (v : Vec) (k : Nat) : Vec :=
  List.replicate (min k v.length) 0 ++ v.drop k

/-- `this(pos) += x` on a vector stored as a list. -/
def vecAddAt (v : Vec) (pos : Nat) (x : Int) : Vec :=
  v.set pos (v.getD pos 0 + x)

/-- `Vector::Assemble(const Vector &V, const ID &pos)`:
`this(pos(i)) += V(i)` for each index of the ID. -/
def vecAssemble (tgt : Vec) (src : Vec) (pos : List Nat) : Vec :=
  (List.zip src pos).foldl (fun acc p => vecAddAt acc p.2 p.1) tgt

/-- Overwrite `s[off..off+xs.length)` with `xs` (writing a named
sub-region of the contiguous transmit buffer). -/
def writeAt (s : Vec) (off : Nat) (xs : Vec) : Vec :=
  (List.zip (List.range xs.length) xs).foldl
    (fun acc p => acc.set (off + p.1) p.2) s

/-- `this(i, j) += x` on a matrix stored as rows. -/
def matAddAt (m : Mat) (i j : Nat) (x : Int) : Mat :=
  m.set i (vecAddAt (m.getD i []) j x)

/-- `Matrix::Assemble(const Matrix &M, const ID &rows, const ID &cols)`
where `M` is the `nb × nb` row-major view `rMatrix` of the receive
buffer `rData`: `this(pos(i), pos(j)) += rData(i·nb + j)`. -/
def matAssemble (tgt : Mat) (rData : Vec) (pos : List Nat) (nb : Nat) : Mat :=
  (List.range nb).foldl (fun acc i =>
    (List.range nb).foldl (fun acc2 j =>
      matAddAt acc2 (pos.getD i 0) (pos.getD j 0) (rData.getD (i * nb + j) 0))
      acc) tgt

/-- Pointwise `v + w` (`Vector::addVector(1.0, w, 1.0)`). -/
def vecAdd (v w : Vec) : Vec := List.zipWith (· + ·) v w

/-- Pointwise `v - w` (`Vector::addVector(1.0, w, -1.0)`). -/
def vecSub (v w : Vec) : Vec := List.zipWith (· - ·) v w

/-- Dot product of two lists. -/
def dot (v w : Vec) : Int := (List.zipWith (· * ·) v w).sum

/-- `Vector::addMatrixVector(1.0, M, x, 1.0)`: `v + M·x`. -/
def matMulVec (m : Mat) (x : Vec) : Vec := m.map (fun row => dot row x)

/-- `disp(theDOF[i])`: select the listed local DOF components of a
node's full vector (C++ `Vector::operator()(const ID&)`). -/
def selectDOFs (v : Vec) (sel : List Nat) : Vec :=
  sel.map (fun j => v.getD j 0)

/-- Assemble per-node selected sub-vectors at consecutive offsets into
one basic-space vector, as `update` does with `db->Assemble(..., ndim)`
onto a zeroed buffer: the concatenation of the selections. -/
def basicVec (vs : List Vec) (dofs : List (List Nat)) : Vec :=
  ((List.zip vs dofs).map (fun p => selectDOFs p.1 p.2)).flatten

/-- Stack per-node full vectors at consecutive node offsets into a
full-space vector of length `n`, as `getResistingForceIncInertia`
builds `vel` and `accel` (`Vector::Assemble(V, ndim)` onto zeros). -/
def stackNodeVecs (n : Nat) (vs : List Vec) : Vec :=
  (vs.foldl (fun acc v => Prod.mk (acc.1 + v.length) (writeAt acc.2 acc.1 v))
    (0, vecZero n)).2

/-! ## DOF mapper (`GenericClient::setDomain`, lines 228–235)

`basicDOF(k) = ndf + theDOF[i](j)`, with `ndf` accumulating each
node's total DOF count while walking nodes in order.  A node is a pair
`(selection, total DOF count)`. -/

/-- The Basic DOF Index Set built exactly as the `setDomain` loop does,
starting from accumulated offset `off`. -/
def buildBasicDOF (off : Nat) : List (List Nat × Nat) → List Nat
  | [] => []
  | p :: rest => p.1.map (off + ·) ++ buildBasicDOF (off + p.2) rest

/-- Total-DOF offset of node `i`: sum of the total DOF counts of the
nodes before it (the spec's "accumulated total-DOF offset"). -/
def nodeOffset (nodes : List (List Nat × Nat)) (i : Nat) : Nat :=
  (((nodes.take i).map Prod.snd)).sum

/-- The Basic DOF Index Set as the spec words it: entry `k` is its
node's global DOF offset plus the selected local index, nodes walked
in order. -/
def basicDOFSpec (nodes : List (List Nat × Nat)) : List Nat :=
  ((List.range nodes.length).map (fun i =>
    (nodes.getD i ([], 0)).1.map (fun j => nodeOffset nodes i + j))).flatten

/-! ## Buffer sizing (`GenericClient::setupConnection`, lines 949–951) -/

/-- The agreed buffer capacity:
`if (dataSize < 1+3*numBasicDOF+1) dataSize = 1+3*numBasicDOF+1;`
`if (dataSize < numBasicDOF*numBasicDOF) dataSize = numBasicDOF*numBasicDOF;` -/
def agreedDataSize (req : Int) (nb : Nat) : Int :=
  let m1 : Int := 1 + 3 * (nb : Int) + 1
  let m2 : Int := (nb : Int) * (nb : Int)
  let d1 := if req < m1 then m1 else req
  if d1 < m2 then m2 else d1

/-! ## Command protocol -/

/-- The remote-test commands this element issues. -/
inductive Cmd where
  | setTrialResponse
  | commitState
  | getForce
  | getInitStiff
  | getTangStiff
  | getDampCmd
  | getMassCmd
  | die
deriving DecidableEq, Repr

/-- Modelled from the spec: the shared `RemoteTest_*` command
enumeration is declared in a header outside this excerpt; the spec
fixes it only as "a fixed, explicitly-valued enumeration" shared with
the external process.  Distinct codes are assigned here; no claim
depends on the particular numeric values. -/
def cmdCode : Cmd → Int
  | .setTrialResponse => 3
  | .commitState => 5
  | .getForce => 10
  | .getInitStiff => 12
  | .getTangStiff => 13
  | .getDampCmd => 14
  | .getMassCmd => 15
  | .die => 99

/-- Observable channel traffic: the one-time sizing handshake, a
buffer send (`Channel::sendVector`), and a blocking receive
(`Channel::recvVector`). -/
inductive Event where
  | sendID (payload : List Int)
  | send (payload : Vec)
  | recv
deriving DecidableEq, Repr

/-- Number of `send` events in a trace. -/
def countSends (es : List Event) : Nat :=
  es.countP (fun e => match e with | .send _ => true | _ => false)

/-- Number of `recv` events in a trace. -/
def countRecvs (es : List Event) : Nat :=
  es.countP (fun e => match e with | .recv => true | _ => false)

/-! ## Element state and external environment -/

/-- External collaborators consumed by the element: the domain clock,
node DOF counts and trial responses, the base-class Rayleigh damping
matrix, and whether the channel's `setUpConnection` succeeds. -/
structure Env where
  currentTime : Int
  nodeNDF : List Nat
  nodeTrialDisp : List Vec
  nodeTrialVel : List Vec
  nodeTrialAccel : List Vec
  rayleighDamp : Mat
  connectOK : Bool

/-- The `GenericClient` object state.  `sData`/`rData` are the
contiguous transmit/receive allocations, `none` while unallocated
(null pointers); `channelOpen` is `theChannel != 0`; `oracle` is the
script of remote replies a `recvVector` consumes, `none` marking a
protocol-level failure (short read / channel closed mid-reply). -/
structure GC where
  theDOF : List (List Nat)
  addRayleigh : Int
  dataSize : Int
  numBasicDOF : Nat
  numDOF : Nat
  basicDOF : List Nat
  theMatrix : Mat
  theVector : Vec
  theLoad : Vec
  theInitStiff : Mat
  theMass : Mat
  channelOpen : Bool
  sData : Option Vec
  rData : Option Vec
  initStiffFlag : Bool
  massFlag : Bool
  dbCtrl : Vec
  vbCtrl : Vec
  abCtrl : Vec
  oracle : List (Option Vec)

/-- The constructor (lines 54–105): stores the per-node DOF selections,
sums their sizes into `numBasicDOF`, sizes and zeroes the basic-space
control vectors, and leaves the channel and both buffers null. -/
def initGC (dof : List (List Nat)) (datasize : Int) (addRay : Int)
    (orc : List (Option Vec)) : GC :=
  let nb := (dof.map List.length).sum
  { theDOF := dof, addRayleigh := addRay, dataSize := datasize,
    numBasicDOF := nb, numDOF := 0,
    basicDOF := List.replicate nb 0,
    theMatrix := matZero 1 1, theVector := vecZero 1, theLoad := vecZero 1,
    theInitStiff := matZero 1 1, theMass := matZero 1 1,
    channelOpen := false, sData := none, rData := none,
    initStiffFlag := false, massFlag := false,
    dbCtrl := vecZero nb, vbCtrl := vecZero nb, abCtrl := vecZero nb,
    oracle := orc }

/-- `setDomain` success path (lines 197–251): recompute `numDOF` from
the nodes, rebuild the Basic DOF Index Set, and resize/zero the
full-space containers.  The channel and buffers are untouched. -/
def setDomain (env : Env) (gc : GC) : GC :=
  let nD := env.nodeNDF.sum
  { gc with
    numDOF := nD,
    basicDOF := buildBasicDOF 0 (gc.theDOF.zip env.nodeNDF),
    theMatrix := matZero nD nD,
    theVector := vecZero nD,
    theLoad := vecZero nD,
    theInitStiff := matZero nD nD,
    theMass := matZero nD nD }

/-- Pop the next scripted reply; an exhausted script behaves as a
failed receive. -/
def popO : List (Option Vec) → Option Vec × List (Option Vec)
  | [] => (none, [])
  | x :: xs => (x, xs)

/-- Contents of the receive buffer after `recvVector`: on success the
reply (a full `dataSize`-length read) replaces the buffer; on a
protocol failure the ignored error code leaves the buffer as it was. -/
def recvData (ds : Nat) (r : Vec) : Option Vec → Vec
  | none => r
  | some reply => reply.take ds ++ vecZero (ds - reply.length)

/-! ## Operations

Each operation returns `none` exactly when the C++ code would
dereference a null pointer (unallocated buffer or channel); a failed
`recvVector` is NOT `none` — its error code is ignored by the code. -/

/-- `setupConnection` (lines 904–978): open the channel; on
`setUpConnection` failure return error with the channel pointer set
but no buffers; on success send the sizing handshake `idData`
(control sizes `numBasicDOF, numBasicDOF, numBasicDOF, 0, 1`,
daq force size `numBasicDOF`, agreed capacity), then allocate and
zero the transmit and receive buffers. -/
def setupConnection (env : Env) (gc : GC) : Int × GC × List Event :=
  if !env.connectOK then
    (-2, { gc with channelOpen := true }, [])
  else
    let nb := gc.numBasicDOF
    let ds := agreedDataSize gc.dataSize nb
    let idData : List Int :=
      [(nb : Int), (nb : Int), (nb : Int), 0, 1, 0, 0, 0, (nb : Int), 0, ds]
    (0,
     { gc with
       channelOpen := true, dataSize := ds,
       sData := some (vecZero ds.toNat), rData := some (vecZero ds.toNat) },
     [.sendID idData])

/-- `update` (lines 293–328): on a null channel run `setupConnection`
(failure aborts with `-1` before any trial data is sent); then write
the current time into the `t` region, assemble the selected trial
displacement/velocity/acceleration into the `db`/`vb`/`ab` regions,
set the command code and send the whole transmit buffer. -/
def update (env : Env) (gc : GC) : Option (Int × GC × List Event) :=
  let (rv, gc1, e1) :=
    if gc.channelOpen then (0, gc, ([] : List Event))
    else setupConnection env gc
  if rv ≠ 0 then some (-1, gc1, e1)
  else
    match gc1.sData with
    | none => none
    | some s =>
      let nb := gc1.numBasicDOF
      let db := basicVec env.nodeTrialDisp gc1.theDOF
      let vb := basicVec env.nodeTrialVel gc1.theDOF
      let ab := basicVec env.nodeTrialAccel gc1.theDOF
      let s1 := writeAt (writeAt (writeAt
                  (s.set (1 + 3 * nb) env.currentTime) 1 db)
                  (1 + nb) vb) (1 + 2 * nb) ab
      let s2 := s1.set 0 (cmdCode .setTrialResponse)
      some (0, { gc1 with sData := some s2 }, e1 ++ [.send s2])

/-- `commitState` (lines 254–266): set the command code and send the
transmit buffer; no reply is read. -/
def commitState (gc : GC) : Option (Int × GC × List Event) :=
  match gc.sData with
  | none => none
  | some s =>
    if gc.channelOpen then
      let s1 := s.set 0 (cmdCode .commitState)
      some (0, { gc with sData := some s1 }, [.send s1])
    else none

/-- `getTangentStiff` (lines 331–344): zero `theMatrix` and the
receive-matrix region, send the command, receive (ignoring the
status), and assemble the receive matrix into `theMatrix` at the
Basic DOF Index Set positions. -/
def getTangentStiff (gc : GC) : Option (Mat × GC × List Event) :=
  match gc.sData, gc.rData with
  | some s, some r =>
    if gc.channelOpen then
      let nb := gc.numBasicDOF
      let s1 := s.set 0 (cmdCode .getTangStiff)
      let rep := (popO gc.oracle).1
      let r1 := recvData gc.dataSize.toNat (vecZeroFront r (nb * nb)) rep
      let m := matAssemble (matZero gc.numDOF gc.numDOF) r1 gc.basicDOF nb
      some (m,
        { gc with
          theMatrix := m, sData := some s1, rData := some r1,
          oracle := (popO gc.oracle).2 },
        [.send s1, .recv])
    else none
  | _, _ => none

/-- `getInitialStiff` (lines 347–364): return the cached full-space
initial stiffness when `initStiffFlag` is set; otherwise perform the
round trip, assemble into `theInitStiff`, and latch the flag. -/
def getInitialStiff (gc : GC) : Option (Mat × GC × List Event) :=
  if gc.initStiffFlag then
    some (gc.theInitStiff, gc, [])
  else
    match gc.sData, gc.rData with
    | some s, some r =>
      if gc.channelOpen then
        let nb := gc.numBasicDOF
        let s1 := s.set 0 (cmdCode .getInitStiff)
        let rep := (popO gc.oracle).1
        let r1 := recvData gc.dataSize.toNat (vecZeroFront r (nb * nb)) rep
        let m := matAssemble (matZero gc.numDOF gc.numDOF) r1 gc.basicDOF nb
        some (m,
          { gc with
            theInitStiff := m, initStiffFlag := true,
            sData := some s1, rData := some r1,
            oracle := (popO gc.oracle).2 },
          [.send s1, .recv])
      else none
    | _, _ => none

/-- `getDamp` (lines 367–385): zero `theMatrix` and the receive-matrix
region, optionally overwrite `theMatrix` with the base-class Rayleigh
damping, then perform the round trip and assemble (add) the remote
damping into `theMatrix`. -/
def getDamp (env : Env) (gc : GC) : Option (Mat × GC × List Event) :=
  match gc.sData, gc.rData with
  | some s, some r =>
    if gc.channelOpen then
      let nb := gc.numBasicDOF
      let base := if gc.addRayleigh = 1 then env.rayleighDamp
                  else matZero gc.numDOF gc.numDOF
      let s1 := s.set 0 (cmdCode .getDampCmd)
      let rep := (popO gc.oracle).1
      let r1 := recvData gc.dataSize.toNat (vecZeroFront r (nb * nb)) rep
      let m := matAssemble base r1 gc.basicDOF nb
      some (m,
        { gc with
          theMatrix := m, sData := some s1, rData := some r1,
          oracle := (popO gc.oracle).2 },
        [.send s1, .recv])
    else none
  | _, _ => none

/-- `getMass` (lines 388–405): return the cached full-space mass when
`massFlag` is set; otherwise perform the round trip, assemble into
`theMass`, and latch the flag. -/
def getMass (gc : GC) : Option (Mat × GC × List Event) :=
  if gc.massFlag then
    some (gc.theMass, gc, [])
  else
    match gc.sData, gc.rData with
    | some s, some r =>
      if gc.channelOpen then
        let nb := gc.numBasicDOF
        let s1 := s.set 0 (cmdCode .getMassCmd)
        let rep := (popO gc.oracle).1
        let r1 := recvData gc.dataSize.toNat (vecZeroFront r (nb * nb)) rep
        let m := matAssemble (matZero gc.numDOF gc.numDOF) r1 gc.basicDOF nb
        some (m,
          { gc with
            theMass := m, massFlag := true,
            sData := some s1, rData := some r1,
            oracle := (popO gc.oracle).2 },
          [.send s1, .recv])
      else none
    | _, _ => none

/-- `getResistingForce` (lines 445–464): zero `theVector`, send the
command and receive (ignoring the status; the receive buffer is NOT
zeroed first), latch the control vectors from the transmit-buffer
regions for the recorder, and scatter the front `numBasicDOF` entries
of the receive buffer (`qDaq`) into `theVector`. -/
def getResistingForce (gc : GC) : Option (Vec × GC × List Event) :=
  match gc.sData, gc.rData with
  | some s, some r =>
    if gc.channelOpen then
      let nb := gc.numBasicDOF
      let s1 := s.set 0 (cmdCode .getForce)
      let rep := (popO gc.oracle).1
      let r1 := recvData gc.dataSize.toNat r rep
      let v := vecAssemble (vecZero gc.numDOF) (r1.take nb) gc.basicDOF
      some (v,
        { gc with
          theVector := v, sData := some s1, rData := some r1,
          oracle := (popO gc.oracle).2,
          dbCtrl := (s1.drop 1).take nb,
          vbCtrl := (s1.drop (1 + nb)).take nb,
          abCtrl := (s1.drop (1 + 2 * nb)).take nb },
        [.send s1, .recv])
    else none
  | _, _ => none

/-- `getResistingForceIncInertia` (lines 467–500): take the resisting
force, subtract the external load, fetch the (cached) mass if needed,
fetch the damping, and add damping·velocity and mass·acceleration
assembled from the nodes' trial responses. -/
def getResistingForceIncInertia (env : Env) (gc : GC) :
    Option (Vec × GC × List Event) := do
  let (f, gc1, e1) ← getResistingForce gc
  let v1 := vecSub f gc1.theLoad
  let gc2 := { gc1 with theVector := v1 }
  let (gc3, e2) ←
    if gc2.massFlag then some (gc2, ([] : List Event))
    else (getMass gc2).map (fun p => (p.2.1, p.2.2))
  let (c, gc4, e3) ← getDamp env gc3
  let vel := stackNodeVecs gc4.numDOF env.nodeTrialVel
  let accel := stackNodeVecs gc4.numDOF env.nodeTrialAccel
  let v2 := vecAdd (vecAdd gc4.theVector (matMulVec c vel))
              (matMulVec gc4.theMass accel)
  some (v2, { gc4 with theVector := v2 }, e1 ++ e2 ++ e3)

/-- The destructor's terminate step (lines 128–134): if the channel
exists, set the command code to `DIE` and send the transmit buffer
(no reply expected), then release the channel and buffers; a
never-connected element sends nothing. -/
def terminate (gc : GC) : Option (GC × List Event) :=
  if gc.channelOpen then
    match gc.sData with
    | none => none
    | some s =>
      let s1 := s.set 0 (cmdCode .die)
      some ({ gc with channelOpen := false, sData := none, rData := none },
            [.send s1])
  else
    some ({ gc with sData := none, rData := none }, [])

/-! ## Concrete example data (used by witnesses and counterexamples) -/

/-- The spec's worked example environment: two nodes with 3 DOF each. -/
def envW : Env :=
  { currentTime := 9
    nodeNDF := [3, 3]
    nodeTrialDisp := [[4, 5, 6], [7, 8, 9]]
    nodeTrialVel := [[1, 1, 1], [2, 2, 2]]
    nodeTrialAccel := [[0, 0, 1], [0, 0, 2]]
    rayleighDamp := matZero 6 6
    connectOK := true }

/-- A connected element for the worked example: selections `{0,1}` at
node 1 and `{0}` at node 2, so `numBasicDOF = 3`, `numDOF = 6`,
Basic DOF Index Set `[0,1,3]`, agreed capacity 11. -/
def gcW : GC :=
  { theDOF := [[0, 1], [0]], addRayleigh := 0, dataSize := 11,
    numBasicDOF := 3, numDOF := 6, basicDOF := [0, 1, 3],
    theMatrix := matZero 6 6, theVector := vecZero 6, theLoad := vecZero 6,
    theInitStiff := matZero 6 6, theMass := matZero 6 6,
    channelOpen := true, sData := some (vecZero 11),
    rData := some (vecZero 11),
    initStiffFlag := false, massFlag := false,
    dbCtrl := vecZero 3, vbCtrl := vecZero 3, abCtrl := vecZero 3,
    oracle := [some [1, 2, 3, 4, 5, 6, 7, 8, 9, 0, 0],
               some [2, 0, 0, 0, 0, 0, 0, 0, 0, 0, 0],
               some [1, 1, 1, 1, 1, 1, 1, 1, 1, 0, 0],
               some [5, 0, 0, 0, 0, 0, 0, 0, 0, 0, 0]] }

/-- A minimal connected element (1 node, 1 DOF, capacity 5) whose
full-space force vector holds `[7]`, whose receive buffer still holds
stale data `[3,0,0,0,0]` from an earlier reply, and whose next
receive fails mid-reply (`none`). -/
def gcC1 : GC :=
  { theDOF := [[0]], addRayleigh := 0, dataSize := 5,
    numBasicDOF := 1, numDOF := 1, basicDOF := [0],
    theMatrix := matZero 1 1, theVector := [7], theLoad := vecZero 1,
    theInitStiff := matZero 1 1, theMass := matZero 1 1,
    channelOpen := true, sData := some (vecZero 5),
    rData := some [3, 0, 0, 0, 0],
    initStiffFlag := false, massFlag := false,
    dbCtrl := vecZero 1, vbCtrl := vecZero 1, abCtrl := vecZero 1,
    oracle := [none] }

/-- A minimal connected element (1 node, 1 DOF, capacity 5) whose
transmit buffer still carries trial data (displacement 5) from the
last `update`, with a successful reply scripted. -/
def gcC5 : GC :=
  { theDOF := [[0]], addRayleigh := 0, dataSize := 5,
    numBasicDOF := 1, numDOF := 1, basicDOF := [0],
    theMatrix := matZero 1 1, theVector := vecZero 1, theLoad := vecZero 1,
    theInitStiff := matZero 1 1, theMass := matZero 1 1,
    channelOpen := true, sData := some [3, 5, 0, 0, 9],
    rData := some (vecZero 5),
    initStiffFlag := false, massFlag := false,
    dbCtrl := vecZero 1, vbCtrl := vecZero 1, abCtrl := vecZero 1,
    oracle := [some [2, 0, 0, 0, 0]] }

/-! ## DOF mapper lemmas -/

theorem buildBasicDOF_length (nodes : List (List Nat × Nat)) :
    ∀ off, (buildBasicDOF off nodes).length =
      ((nodes.map (fun p => p.1.length)).sum) := by
  induction nodes with
  | nil => intro off; simp [buildBasicDOF]
  | cons p rest ih =>
    intro off
    simp [buildBasicDOF, ih (off + p.2)]

theorem nodeOffset_cons (p : List Nat × Nat) (rest : List (List Nat × Nat))
    (i : Nat) : nodeOffset (p :: rest) (i + 1) = p.2 + nodeOffset rest i := by
  simp [nodeOffset]

theorem basicDOFSpec_cons (p : List Nat × Nat) (rest : List (List Nat × Nat)) :
    basicDOFSpec (p :: rest) = p.1 ++ (basicDOFSpec rest).map (p.2 + ·) := by
  unfold basicDOFSpec
  rw [List.length_cons, List.range_succ_eq_map, List.map_cons,
    List.flatten_cons, List.map_map, List.map_flatten, List.map_map]
  congr 1
  · have : nodeOffset (p :: rest) 0 = 0 := by simp [nodeOffset]
    simp [this]
  · congr 1
    apply List.map_congr_left
    intro i _
    simp only [Function.comp_apply, List.getD_cons_succ, nodeOffset_cons,
      List.map_map]
    apply List.map_congr_left
    intro j _
    simp [Function.comp_apply]
    omega

theorem buildBasicDOF_eq_spec (nodes : List (List Nat × Nat)) :
    ∀ off, buildBasicDOF off nodes = (basicDOFSpec nodes).map (off + ·) := by
  induction nodes with
  | nil => intro off; simp [buildBasicDOF, basicDOFSpec]
  | cons p rest ih =>
    intro off
    rw [buildBasicDOF, basicDOFSpec_cons, List.map_append, ih (off + p.2),
      List.map_map]
    congr 1
    apply List.map_congr_left
    intro j _
    simp [Function.comp_apply]
    omega

theorem buildBasicDOF_lt (nodes : List (List Nat × Nat)) :
    ∀ off, (∀ p ∈ nodes, ∀ j ∈ p.1, j < p.2) →
      ∀ x ∈ buildBasicDOF off nodes, x < off + (nodes.map Prod.snd).sum := by
  induction nodes with
  | nil => intro off _ x hx; simp [buildBasicDOF] at hx
  | cons p rest ih =>
    intro off hv x hx
    rw [buildBasicDOF] at hx
    rcases List.mem_append.1 hx with h | h
    · obtain ⟨j, hj, rfl⟩ := List.mem_map.1 h
      have := hv p (by simp) j hj
      simp only [List.map_cons, List.sum_cons]
      omega
    · have := ih (off + p.2) (fun q hq => hv q (List.mem_cons_of_mem _ hq)) x h
      simp only [List.map_cons, List.sum_cons] at this ⊢
      omega

/-- C2: for every attached element, the Basic DOF Index Set has length
`numBasicDOF` equal to the sum over nodes of the number of selected
DOFs, and entry `k` equals the accumulated total-DOF offset of its
node plus the selected local index, walking nodes in order; every
entry lies in `[0, numDOF)` for valid selections; in the worked
example (2 nodes, 3 DOF each, selections `{0,1}` and `{0}`),
`numBasicDOF = 3` and the set is `[0,1,3]`. -/
theorem C2_basic_dof_index_set (env : Env) (dof : List (List Nat))
    (ds ar : Int) (orc : List (Option Vec))
    (hlen : dof.length = env.nodeNDF.length)
    (hvalid : ∀ p ∈ dof.zip env.nodeNDF, ∀ j ∈ p.1, j < p.2) :
    (setDomain env (initGC dof ds ar orc)).basicDOF.length =
      (setDomain env (initGC dof ds ar orc)).numBasicDOF ∧
    (setDomain env (initGC dof ds ar orc)).numBasicDOF =
      (dof.map List.length).sum ∧
    (setDomain env (initGC dof ds ar orc)).basicDOF =
      basicDOFSpec (dof.zip env.nodeNDF) ∧
    (∀ x ∈ (setDomain env (initGC dof ds ar orc)).basicDOF,
      x < (setDomain env (initGC dof ds ar orc)).numDOF) ∧
    (setDomain envW (initGC [[0, 1], [0]] ds ar orc)).numBasicDOF = 3 ∧
    (setDomain envW (initGC [[0, 1], [0]] ds ar orc)).basicDOF = [0, 1, 3] := by
  refine ⟨?_, ?_, ?_, ?_, ?_, ?_⟩
  · show (buildBasicDOF 0 (dof.zip env.nodeNDF)).length = (dof.map List.length).sum
    rw [buildBasicDOF_length]
    have : (dof.zip env.nodeNDF).map (fun p => p.1.length) =
        dof.map List.length := by
      rw [show (fun p : List Nat × Nat => p.1.length) =
            List.length ∘ Prod.fst from rfl, ← List.map_map,
        List.map_fst_zip _ _ (le_of_eq hlen)]
    rw [this]
  · rfl
  · show buildBasicDOF 0 (dof.zip env.nodeNDF) = _
    rw [buildBasicDOF_eq_spec]
    simp
  · intro x hx
    have h := buildBasicDOF_lt (dof.zip env.nodeNDF) 0 hvalid x hx
    have hsnd : (dof.zip env.nodeNDF).map Prod.snd = env.nodeNDF :=
      List.map_snd_zip _ _ (le_of_eq hlen.symm)
    show x < env.nodeNDF.sum
    rw [hsnd] at h
    omega
  · rfl
  · rfl

/-- Application of `C2_basic_dof_index_set` at the spec's worked
example, discharging both hypotheses concretely. -/
theorem C2_basic_dof_index_set_witness :
    (setDomain envW (initGC [[0, 1], [0]] 2 0 [])).basicDOF.length =
      (setDomain envW (initGC [[0, 1], [0]] 2 0 [])).numBasicDOF ∧
    (setDomain envW (initGC [[0, 1], [0]] 2 0 [])).numBasicDOF =
      ([[0, 1], [0]].map List.length).sum ∧
    (setDomain envW (initGC [[0, 1], [0]] 2 0 [])).basicDOF =
      basicDOFSpec ([[0, 1], [0]].zip envW.nodeNDF) ∧
    (∀ x ∈ (setDomain envW (initGC [[0, 1], [0]] 2 0 [])).basicDOF,
      x < (setDomain envW (initGC [[0, 1], [0]] 2 0 [])).numDOF) ∧
    (setDomain envW (initGC [[0, 1], [0]] 2 0 [])).numBasicDOF = 3 ∧
    (setDomain envW (initGC [[0, 1], [0]] 2 0 [])).basicDOF = [0, 1, 3] :=
  C2_basic_dof_index_set envW [[0, 1], [0]] 2 0 [] (by decide)
    (by decide)

/-- C6: the capacity agreed in the sizing handshake is the requested
capacity auto-raised to at least `1 + 3·numBasicDOF + 1` and at least
`numBasicDOF²`; a request already at or above both minimums is never
changed (in particular never lowered). -/
theorem C6_agreed_capacity (req : Int) (nb : Nat) :
    req ≤ agreedDataSize req nb ∧
    1 + 3 * (nb : Int) + 1 ≤ agreedDataSize req nb ∧
    (nb : Int) * nb ≤ agreedDataSize req nb ∧
    (1 + 3 * (nb : Int) + 1 ≤ req → (nb : Int) * nb ≤ req →
      agreedDataSize req nb = req) := by
  unfold agreedDataSize
  refine ⟨?_, ?_, ?_, ?_⟩ <;> (dsimp only; split_ifs <;> omega)

/-- Application of `C6_agreed_capacity` at a concrete request and DOF
count. -/
theorem C6_agreed_capacity_witness :
    (100 : Int) ≤ agreedDataSize 100 3 ∧
    1 + 3 * ((3 : Nat) : Int) + 1 ≤ agreedDataSize 100 3 ∧
    ((3 : Nat) : Int) * (3 : Nat) ≤ agreedDataSize 100 3 ∧
    (1 + 3 * ((3 : Nat) : Int) + 1 ≤ 100 → ((3 : Nat) : Int) * (3 : Nat) ≤ 100 →
      agreedDataSize 100 3 = 100) :=
  C6_agreed_capacity 100 3

/-! ## One-step equation lemmas

Explicit forms of each operation's successful step, shared by the
claim proofs below. -/

theorem terminate_unconnected_eq (gc : GC) (hch : gc.channelOpen = false) :
    terminate gc = some ({ gc with sData := none, rData := none }, []) := by
  simp [terminate, hch]

theorem terminate_connected_eq (gc : GC) (s : Vec) (hs : gc.sData = some s)
    (hch : gc.channelOpen = true) :
    terminate gc =
      some ({ gc with channelOpen := false, sData := none, rData := none },
        [Event.send (s.set 0 (cmdCode .die))]) := by
  simp [terminate, hch, hs]

theorem commitState_eq (gc : GC) (s : Vec) (hs : gc.sData = some s)
    (hch : gc.channelOpen = true) :
    commitState gc =
      some (0, { gc with sData := some (s.set 0 (cmdCode .commitState)) },
        [Event.send (s.set 0 (cmdCode .commitState))]) := by
  simp [commitState, hs, hch]

theorem getTangentStiff_eq (gc : GC) (s r : Vec) (hs : gc.sData = some s)
    (hr : gc.rData = some r) (hch : gc.channelOpen = true) :
    getTangentStiff gc =
      some (matAssemble (matZero gc.numDOF gc.numDOF)
              (recvData gc.dataSize.toNat
                (vecZeroFront r (gc.numBasicDOF * gc.numBasicDOF))
                (popO gc.oracle).1) gc.basicDOF gc.numBasicDOF,
            { gc with
              theMatrix := matAssemble (matZero gc.numDOF gc.numDOF)
                (recvData gc.dataSize.toNat
                  (vecZeroFront r (gc.numBasicDOF * gc.numBasicDOF))
                  (popO gc.oracle).1) gc.basicDOF gc.numBasicDOF,
              sData := some (s.set 0 (cmdCode .getTangStiff)),
              rData := some (recvData gc.dataSize.toNat
                (vecZeroFront r (gc.numBasicDOF * gc.numBasicDOF))
                (popO gc.oracle).1),
              oracle := (popO gc.oracle).2 },
            [Event.send (s.set 0 (cmdCode .getTangStiff)), Event.recv]) := by
  simp [getTangentStiff, hs, hr, hch]

theorem getInitialStiff_uncached_eq (gc : GC) (s r : Vec)
    (hif : gc.initStiffFlag = false) (hs : gc.sData = some s)
    (hr : gc.rData = some r) (hch : gc.channelOpen = true) :
    getInitialStiff gc =
      some (matAssemble (matZero gc.numDOF gc.numDOF)
              (recvData gc.dataSize.toNat
                (vecZeroFront r (gc.numBasicDOF * gc.numBasicDOF))
                (popO gc.oracle).1) gc.basicDOF gc.numBasicDOF,
            { gc with
              theInitStiff := matAssemble (matZero gc.numDOF gc.numDOF)
                (recvData gc.dataSize.toNat
                  (vecZeroFront r (gc.numBasicDOF * gc.numBasicDOF))
                  (popO gc.oracle).1) gc.basicDOF gc.numBasicDOF,
              initStiffFlag := true,
              sData := some (s.set 0 (cmdCode .getInitStiff)),
              rData := some (recvData gc.dataSize.toNat
                (vecZeroFront r (gc.numBasicDOF * gc.numBasicDOF))
                (popO gc.oracle).1),
              oracle := (popO gc.oracle).2 },
            [Event.send (s.set 0 (cmdCode .getInitStiff)), Event.recv]) := by
  simp [getInitialStiff, hif, hs, hr, hch]

theorem getInitialStiff_cached_eq (gc : GC) (hif : gc.initStiffFlag = true) :
    getInitialStiff gc = some (gc.theInitStiff, gc, []) := by
  simp [getInitialStiff, hif]

theorem getDamp_eq (env : Env) (gc : GC) (s r : Vec) (hs : gc.sData = some s)
    (hr : gc.rData = some r) (hch : gc.channelOpen = true) :
    getDamp env gc =
      some (matAssemble
              (if gc.addRayleigh = 1 then env.rayleighDamp
               else matZero gc.numDOF gc.numDOF)
              (recvData gc.dataSize.toNat
                (vecZeroFront r (gc.numBasicDOF * gc.numBasicDOF))
                (popO gc.oracle).1) gc.basicDOF gc.numBasicDOF,
            { gc with
              theMatrix := matAssemble
                (if gc.addRayleigh = 1 then env.rayleighDamp
                 else matZero gc.numDOF gc.numDOF)
                (recvData gc.dataSize.toNat
                  (vecZeroFront r (gc.numBasicDOF * gc.numBasicDOF))
                  (popO gc.oracle).1) gc.basicDOF gc.numBasicDOF,
              sData := some (s.set 0 (cmdCode .getDampCmd)),
              rData := some (recvData gc.dataSize.toNat
                (vecZeroFront r (gc.numBasicDOF * gc.numBasicDOF))
                (popO gc.oracle).1),
              oracle := (popO gc.oracle).2 },
            [Event.send (s.set 0 (cmdCode .getDampCmd)), Event.recv]) := by
  simp [getDamp, hs, hr, hch]

theorem getMass_uncached_eq (gc : GC) (s r : Vec)
    (hmf : gc.massFlag = false) (hs : gc.sData = some s)
    (hr : gc.rData = some r) (hch : gc.channelOpen = true) :
    getMass gc =
      some (matAssemble (matZero gc.numDOF gc.numDOF)
              (recvData gc.dataSize.toNat
                (vecZeroFront r (gc.numBasicDOF * gc.numBasicDOF))
                (popO gc.oracle).1) gc.basicDOF gc.numBasicDOF,
            { gc with
              theMass := matAssemble (matZero gc.numDOF gc.numDOF)
                (recvData gc.dataSize.toNat
                  (vecZeroFront r (gc.numBasicDOF * gc.numBasicDOF))
                  (popO gc.oracle).1) gc.basicDOF gc.numBasicDOF,
              massFlag := true,
              sData := some (s.set 0 (cmdCode .getMassCmd)),
              rData := some (recvData gc.dataSize.toNat
                (vecZeroFront r (gc.numBasicDOF * gc.numBasicDOF))
                (popO gc.oracle).1),
              oracle := (popO gc.oracle).2 },
            [Event.send (s.set 0 (cmdCode .getMassCmd)), Event.recv]) := by
  simp [getMass, hmf, hs, hr, hch]

theorem getMass_cached_eq (gc : GC) (hmf : gc.massFlag = true) :
    getMass gc = some (gc.theMass, gc, []) := by
  simp [getMass, hmf]

theorem getResistingForce_eq (gc : GC) (s r : Vec) (hs : gc.sData = some s)
    (hr : gc.rData = some r) (hch : gc.channelOpen = true) :
    getResistingForce gc =
      some (vecAssemble (vecZero gc.numDOF)
              ((recvData gc.dataSize.toNat r (popO gc.oracle).1).take
                gc.numBasicDOF) gc.basicDOF,
            { gc with
              theVector := vecAssemble (vecZero gc.numDOF)
                ((recvData gc.dataSize.toNat r (popO gc.oracle).1).take
                  gc.numBasicDOF) gc.basicDOF,
              sData := some (s.set 0 (cmdCode .getForce)),
              rData := some (recvData gc.dataSize.toNat r (popO gc.oracle).1),
              oracle := (popO gc.oracle).2,
              dbCtrl := ((s.set 0 (cmdCode .getForce)).drop 1).take
                gc.numBasicDOF,
              vbCtrl := ((s.set 0 (cmdCode .getForce)).drop
                (1 + gc.numBasicDOF)).take gc.numBasicDOF,
              abCtrl := ((s.set 0 (cmdCode .getForce)).drop
                (1 + 2 * gc.numBasicDOF)).take gc.numBasicDOF },
            [Event.send (s.set 0 (cmdCode .getForce)), Event.recv]) := by
  simp [getResistingForce, hs, hr, hch]

/-! ## Lifecycle claims -/

/-- C7: terminate is idempotent.  Tearing down a never-connected
element touches no channel (empty trace) and reports no error; after
a connection is up, teardown sends exactly one `DIE` command (one
`send`, no `recv`, nothing else in the trace), and a repeated
teardown sends nothing further. -/
theorem C7_terminate_idempotent (gc gcC : GC) (s : Vec)
    (hnever : gc.channelOpen = false)
    (hs : gcC.sData = some s) (hch : gcC.channelOpen = true) :
    (∃ gc1, terminate gc = some (gc1, [])) ∧
    (∃ gc1, terminate gcC =
        some (gc1, [Event.send (s.set 0 (cmdCode .die))]) ∧
      countSends [Event.send (s.set 0 (cmdCode .die))] = 1 ∧
      countRecvs [Event.send (s.set 0 (cmdCode .die))] = 0 ∧
      ∃ gc2, terminate gc1 = some (gc2, [])) :=
  ⟨⟨_, terminate_unconnected_eq gc hnever⟩,
   ⟨_, terminate_connected_eq gcC s hs hch, rfl, rfl,
    ⟨_, terminate_unconnected_eq _ rfl⟩⟩⟩

/-- Application of `C7_terminate_idempotent`: a never-connected
freshly constructed element, and the connected example element. -/
theorem C7_terminate_idempotent_witness :
    (∃ gc1, terminate (initGC [[0, 1], [0]] 2 0 []) = some (gc1, [])) ∧
    (∃ gc1, terminate gcW =
        some (gc1, [Event.send ((vecZero 11).set 0 (cmdCode .die))]) ∧
      countSends [Event.send ((vecZero 11).set 0 (cmdCode .die))] = 1 ∧
      countRecvs [Event.send ((vecZero 11).set 0 (cmdCode .die))] = 0 ∧
      ∃ gc2, terminate gc1 = some (gc2, [])) :=
  C7_terminate_idempotent (initGC [[0, 1], [0]] 2 0 []) gcW
    (vecZero 11) rfl rfl rfl

/-- C9: every remote operation other than `update` presupposes an
established connection.  On a never-connected element (null channel
and buffers, cache flags still clear) each of `commitState`,
`getTangentStiff`, `getInitialStiff`, `getDamp`, `getMass` and
`getResistingForce` hits an unallocated buffer (undefined, modelled
as `none`); with the connection established, every one of them is
defined. -/
theorem C9_connection_precondition (env : Env) (gc gcC : GC) (s r : Vec)
    (hnos : gc.sData = none) (hnor : gc.rData = none)
    (hfl1 : gc.initStiffFlag = false) (hfl2 : gc.massFlag = false)
    (hs : gcC.sData = some s) (hr : gcC.rData = some r)
    (hch : gcC.channelOpen = true) :
    commitState gc = none ∧
    getTangentStiff gc = none ∧
    getInitialStiff gc = none ∧
    getDamp env gc = none ∧
    getMass gc = none ∧
    getResistingForce gc = none ∧
    (commitState gcC).isSome ∧
    (getTangentStiff gcC).isSome ∧
    (getInitialStiff gcC).isSome ∧
    (getDamp env gcC).isSome ∧
    (getMass gcC).isSome ∧
    (getResistingForce gcC).isSome := by
  refine ⟨?_, ?_, ?_, ?_, ?_, ?_, ?_, ?_, ?_, ?_, ?_, ?_⟩
  · simp [commitState, hnos]
  · simp [getTangentStiff, hnos]
  · simp [getInitialStiff, hfl1, hnos]
  · simp [getDamp, hnos]
  · simp [getMass, hfl2, hnos]
  · simp [getResistingForce, hnos]
  · simp [commitState, hs, hch]
  · simp [getTangentStiff, hs, hr, hch]
  · by_cases hf : gcC.initStiffFlag <;> simp [getInitialStiff, hf, hs, hr, hch]
  · simp [getDamp, hs, hr, hch]
  · by_cases hf : gcC.massFlag <;> simp [getMass, hf, hs, hr, hch]
  · simp [getResistingForce, hs, hr, hch]

/-- Application of `C9_connection_precondition`: the never-connected
constructed element versus the connected example element. -/
theorem C9_connection_precondition_witness :
    commitState (initGC [[0, 1], [0]] 2 0 []) = none ∧
    getTangentStiff (initGC [[0, 1], [0]] 2 0 []) = none ∧
    getInitialStiff (initGC [[0, 1], [0]] 2 0 []) = none ∧
    getDamp envW (initGC [[0, 1], [0]] 2 0 []) = none ∧
    getMass (initGC [[0, 1], [0]] 2 0 []) = none ∧
    getResistingForce (initGC [[0, 1], [0]] 2 0 []) = none ∧
    (commitState gcW).isSome ∧
    (getTangentStiff gcW).isSome ∧
    (getInitialStiff gcW).isSome ∧
    (getDamp envW gcW).isSome ∧
    (getMass gcW).isSome ∧
    (getResistingForce gcW).isSome :=
  C9_connection_precondition envW (initGC [[0, 1], [0]] 2 0 []) gcW
    (vecZero 11) (vecZero 11) rfl rfl rfl rfl rfl rfl rfl

/-! ## Cache claims -/

/-- C3: cache law.  From a connected state with the flags clear, two
consecutive `getInitialStiff` calls perform exactly one round trip in
total (one send and one receive, all in the first call), return
identical matrices, and the flag is latched by the first call; the
same holds for `getMass`. -/
theorem C3_cache_law (gc : GC) (s r : Vec)
    (hs : gc.sData = some s) (hr : gc.rData = some r)
    (hch : gc.channelOpen = true)
    (hif : gc.initStiffFlag = false) (hmf : gc.massFlag = false) :
    (∃ m gc1 e1, getInitialStiff gc = some (m, gc1, e1) ∧
      gc1.initStiffFlag = true ∧
      countSends e1 = 1 ∧ countRecvs e1 = 1 ∧
      getInitialStiff gc1 = some (m, gc1, [])) ∧
    (∃ m gc1 e1, getMass gc = some (m, gc1, e1) ∧
      gc1.massFlag = true ∧
      countSends e1 = 1 ∧ countRecvs e1 = 1 ∧
      getMass gc1 = some (m, gc1, [])) :=
  ⟨⟨_, _, _, getInitialStiff_uncached_eq gc s r hif hs hr hch, rfl, rfl, rfl,
    getInitialStiff_cached_eq _ rfl⟩,
   ⟨_, _, _, getMass_uncached_eq gc s r hmf hs hr hch, rfl, rfl, rfl,
    getMass_cached_eq _ rfl⟩⟩

/-- Application of `C3_cache_law` at the connected example element. -/
theorem C3_cache_law_witness :
    (∃ m gc1 e1, getInitialStiff gcW = some (m, gc1, e1) ∧
      gc1.initStiffFlag = true ∧
      countSends e1 = 1 ∧ countRecvs e1 = 1 ∧
      getInitialStiff gc1 = some (m, gc1, [])) ∧
    (∃ m gc1 e1, getMass gcW = some (m, gc1, e1) ∧
      gc1.massFlag = true ∧
      countSends e1 = 1 ∧ countRecvs e1 = 1 ∧
      getMass gc1 = some (m, gc1, [])) :=
  C3_cache_law gcW (vecZero 11) (vecZero 11) rfl rfl rfl rfl rfl

/-- C4: no-cache law.  From a connected state, two consecutive
`getTangentStiff` calls perform two independent round trips (each
call one send and one receive); likewise for `getDamp` and
`getResistingForce`. -/
theorem C4_no_cache_law (env : Env) (gc : GC) (s r : Vec)
    (hs : gc.sData = some s) (hr : gc.rData = some r)
    (hch : gc.channelOpen = true) :
    (∃ m1 gc1 e1 m2 gc2 e2,
      getTangentStiff gc = some (m1, gc1, e1) ∧
      getTangentStiff gc1 = some (m2, gc2, e2) ∧
      countSends e1 = 1 ∧ countRecvs e1 = 1 ∧
      countSends e2 = 1 ∧ countRecvs e2 = 1) ∧
    (∃ m1 gc1 e1 m2 gc2 e2,
      getDamp env gc = some (m1, gc1, e1) ∧
      getDamp env gc1 = some (m2, gc2, e2) ∧
      countSends e1 = 1 ∧ countRecvs e1 = 1 ∧
      countSends e2 = 1 ∧ countRecvs e2 = 1) ∧
    (∃ v1 gc1 e1 v2 gc2 e2,
      getResistingForce gc = some (v1, gc1, e1) ∧
      getResistingForce gc1 = some (v2, gc2, e2) ∧
      countSends e1 = 1 ∧ countRecvs e1 = 1 ∧
      countSends e2 = 1 ∧ countRecvs e2 = 1) :=
  ⟨⟨_, _, _, _, _, _, getTangentStiff_eq gc s r hs hr hch,
    getTangentStiff_eq _ _ _ rfl rfl hch, rfl, rfl, rfl, rfl⟩,
   ⟨_, _, _, _, _, _, getDamp_eq env gc s r hs hr hch,
    getDamp_eq env _ _ _ rfl rfl hch, rfl, rfl, rfl, rfl⟩,
   ⟨_, _, _, _, _, _, getResistingForce_eq gc s r hs hr hch,
    getResistingForce_eq _ _ _ rfl rfl hch, rfl, rfl, rfl, rfl⟩⟩

/-- Application of `C4_no_cache_law` at the connected example
element. -/
theorem C4_no_cache_law_witness :
    (∃ m1 gc1 e1 m2 gc2 e2,
      getTangentStiff gcW = some (m1, gc1, e1) ∧
      getTangentStiff gc1 = some (m2, gc2, e2) ∧
      countSends e1 = 1 ∧ countRecvs e1 = 1 ∧
      countSends e2 = 1 ∧ countRecvs e2 = 1) ∧
    (∃ m1 gc1 e1 m2 gc2 e2,
      getDamp envW gcW = some (m1, gc1, e1) ∧
      getDamp envW gc1 = some (m2, gc2, e2) ∧
      countSends e1 = 1 ∧ countRecvs e1 = 1 ∧
      countSends e2 = 1 ∧ countRecvs e2 = 1) ∧
    (∃ v1 gc1 e1 v2 gc2 e2,
      getResistingForce gcW = some (v1, gc1, e1) ∧
      getResistingForce gc1 = some (v2, gc2, e2) ∧
      countSends e1 = 1 ∧ countRecvs e1 = 1 ∧
      countSends e2 = 1 ∧ countRecvs e2 = 1) :=
  C4_no_cache_law envW gcW (vecZero 11) (vecZero 11) rfl rfl rfl

/-! ## Failure-semantics and payload claims -/

/-- C1 counterexample: on `gcC1` the next receive fails mid-reply
(`GET_FORCE` round trip, oracle `none`), yet `getResistingForce`
completes normally (`isSome`, no failure status) and the full-space
force vector changes from its pre-call value `[7]` to `[3]`, the
scatter of the stale receive buffer — it is NOT left at its previous
value. -/
theorem C1_counterexample :
    gcC1.theVector = [7] ∧
    (getResistingForce gcC1).map (fun p => p.2.1.theVector) = some [3] ∧
    (getResistingForce gcC1).isSome = true :=
  ⟨rfl, rfl, rfl⟩

/-- C1ADJ: what the code actually does on a protocol-level failure
during a getter round trip, for every getter family.  The error code
is ignored and no failure status is surfaced — every call returns
normally — and the full-space container is not left at its pre-call
value: it is rebuilt from the zeroed base and the receive buffer as
the failed receive left it.  For `GET_FORCE` the receive buffer is
not zeroed first, so the force vector becomes the scatter of the
stale buffer contents; for the matrix getters the receive-matrix
region is zeroed before the receive, so the container becomes the
scatter of that zeroed region; `getInitialStiff` and `getMass` even
latch their cache flags on the failed fetch. -/
theorem C1_amended_failure_ignored (env : Env) (gc : GC) (s r : Vec)
    (hs : gc.sData = some s) (hr : gc.rData = some r)
    (hch : gc.channelOpen = true)
    (hif : gc.initStiffFlag = false) (hmf : gc.massFlag = false)
    (hfail : (popO gc.oracle).1 = none) :
    (∃ gc1 e, getResistingForce gc =
        some (vecAssemble (vecZero gc.numDOF) (r.take gc.numBasicDOF)
          gc.basicDOF, gc1, e) ∧
      gc1.theVector =
        vecAssemble (vecZero gc.numDOF) (r.take gc.numBasicDOF)
          gc.basicDOF) ∧
    (∃ gc1 e, getTangentStiff gc =
        some (matAssemble (matZero gc.numDOF gc.numDOF)
          (vecZeroFront r (gc.numBasicDOF * gc.numBasicDOF))
          gc.basicDOF gc.numBasicDOF, gc1, e) ∧
      gc1.theMatrix =
        matAssemble (matZero gc.numDOF gc.numDOF)
          (vecZeroFront r (gc.numBasicDOF * gc.numBasicDOF))
          gc.basicDOF gc.numBasicDOF) ∧
    (∃ gc1 e, getInitialStiff gc =
        some (matAssemble (matZero gc.numDOF gc.numDOF)
          (vecZeroFront r (gc.numBasicDOF * gc.numBasicDOF))
          gc.basicDOF gc.numBasicDOF, gc1, e) ∧
      gc1.theInitStiff =
        matAssemble (matZero gc.numDOF gc.numDOF)
          (vecZeroFront r (gc.numBasicDOF * gc.numBasicDOF))
          gc.basicDOF gc.numBasicDOF ∧
      gc1.initStiffFlag = true) ∧
    (∃ gc1 e, getDamp env gc =
        some (matAssemble
          (if gc.addRayleigh = 1 then env.rayleighDamp
           else matZero gc.numDOF gc.numDOF)
          (vecZeroFront r (gc.numBasicDOF * gc.numBasicDOF))
          gc.basicDOF gc.numBasicDOF, gc1, e) ∧
      gc1.theMatrix =
        matAssemble
          (if gc.addRayleigh = 1 then env.rayleighDamp
           else matZero gc.numDOF gc.numDOF)
          (vecZeroFront r (gc.numBasicDOF * gc.numBasicDOF))
          gc.basicDOF gc.numBasicDOF) ∧
    (∃ gc1 e, getMass gc =
        some (matAssemble (matZero gc.numDOF gc.numDOF)
          (vecZeroFront r (gc.numBasicDOF * gc.numBasicDOF))
          gc.basicDOF gc.numBasicDOF, gc1, e) ∧
      gc1.theMass =
        matAssemble (matZero gc.numDOF gc.numDOF)
          (vecZeroFront r (gc.numBasicDOF * gc.numBasicDOF))
          gc.basicDOF gc.numBasicDOF ∧
      gc1.massFlag = true) := by
  have hF := getResistingForce_eq gc s r hs hr hch
  have hT := getTangentStiff_eq gc s r hs hr hch
  have hI := getInitialStiff_uncached_eq gc s r hif hs hr hch
  have hD := getDamp_eq env gc s r hs hr hch
  have hM := getMass_uncached_eq gc s r hmf hs hr hch
  rw [hfail] at hF hT hI hD hM
  simp only [recvData] at hF hT hI hD hM
  exact ⟨⟨_, _, hF, rfl⟩, ⟨_, _, hT, rfl⟩, ⟨_, _, hI, rfl, rfl⟩,
    ⟨_, _, hD, rfl⟩, ⟨_, _, hM, rfl, rfl⟩⟩

/-- Application of `C1_amended_failure_ignored` at the concrete
failing state `gcC1`. -/
theorem C1_amended_failure_ignored_witness :
    (∃ gc1 e, getResistingForce gcC1 =
        some (vecAssemble (vecZero gcC1.numDOF)
          (([3, 0, 0, 0, 0] : Vec).take gcC1.numBasicDOF)
          gcC1.basicDOF, gc1, e) ∧
      gc1.theVector =
        vecAssemble (vecZero gcC1.numDOF)
          (([3, 0, 0, 0, 0] : Vec).take gcC1.numBasicDOF)
          gcC1.basicDOF) ∧
    (∃ gc1 e, getTangentStiff gcC1 =
        some (matAssemble (matZero gcC1.numDOF gcC1.numDOF)
          (vecZeroFront [3, 0, 0, 0, 0]
            (gcC1.numBasicDOF * gcC1.numBasicDOF))
          gcC1.basicDOF gcC1.numBasicDOF, gc1, e) ∧
      gc1.theMatrix =
        matAssemble (matZero gcC1.numDOF gcC1.numDOF)
          (vecZeroFront [3, 0, 0, 0, 0]
            (gcC1.numBasicDOF * gcC1.numBasicDOF))
          gcC1.basicDOF gcC1.numBasicDOF) ∧
    (∃ gc1 e, getInitialStiff gcC1 =
        some (matAssemble (matZero gcC1.numDOF gcC1.numDOF)
          (vecZeroFront [3, 0, 0, 0, 0]
            (gcC1.numBasicDOF * gcC1.numBasicDOF))
          gcC1.basicDOF gcC1.numBasicDOF, gc1, e) ∧
      gc1.theInitStiff =
        matAssemble (matZero gcC1.numDOF gcC1.numDOF)
          (vecZeroFront [3, 0, 0, 0, 0]
            (gcC1.numBasicDOF * gcC1.numBasicDOF))
          gcC1.basicDOF gcC1.numBasicDOF ∧
      gc1.initStiffFlag = true) ∧
    (∃ gc1 e, getDamp envW gcC1 =
        some (matAssemble
          (if gcC1.addRayleigh = 1 then envW.rayleighDamp
           else matZero gcC1.numDOF gcC1.numDOF)
          (vecZeroFront [3, 0, 0, 0, 0]
            (gcC1.numBasicDOF * gcC1.numBasicDOF))
          gcC1.basicDOF gcC1.numBasicDOF, gc1, e) ∧
      gc1.theMatrix =
        matAssemble
          (if gcC1.addRayleigh = 1 then envW.rayleighDamp
           else matZero gcC1.numDOF gcC1.numDOF)
          (vecZeroFront [3, 0, 0, 0, 0]
            (gcC1.numBasicDOF * gcC1.numBasicDOF))
          gcC1.basicDOF gcC1.numBasicDOF) ∧
    (∃ gc1 e, getMass gcC1 =
        some (matAssemble (matZero gcC1.numDOF gcC1.numDOF)
          (vecZeroFront [3, 0, 0, 0, 0]
            (gcC1.numBasicDOF * gcC1.numBasicDOF))
          gcC1.basicDOF gcC1.numBasicDOF, gc1, e) ∧
      gc1.theMass =
        matAssemble (matZero gcC1.numDOF gcC1.numDOF)
          (vecZeroFront [3, 0, 0, 0, 0]
            (gcC1.numBasicDOF * gcC1.numBasicDOF))
          gcC1.basicDOF gcC1.numBasicDOF ∧
      gc1.massFlag = true) :=
  C1_amended_failure_ignored envW gcC1 (vecZero 5) [3, 0, 0, 0, 0]
    rfl rfl rfl rfl rfl rfl

/-- C5 counterexample: on `gcC5`, whose transmit buffer still carries
the trial state of the last `update` (displacement 5, time 9), the
`GET_FORCE` round trip sends the full five-entry transmit buffer —
not the command code only. -/
theorem C5_counterexample :
    (getResistingForce gcC5).map (fun p => p.2.2) =
      some [Event.send [cmdCode Cmd.getForce, 5, 0, 0, 9], Event.recv] ∧
    [cmdCode Cmd.getForce, (5 : Int), 0, 0, 9] ≠ [cmdCode Cmd.getForce] :=
  ⟨rfl, by decide⟩

/-- C5ADJ: for every query command other than `SET_TRIAL_RESPONSE`,
the payload sent on the channel is the full transmit buffer with
region 0 overwritten by the command code (the remaining regions carry
the last-written trial state); each query is exactly one synchronous
round trip — one send followed by one receive, nothing else — and
`COMMIT_STATE` is a single send with no reply read. -/
theorem C5_amended_full_buffer_payload (env : Env) (gc : GC) (s r : Vec)
    (hs : gc.sData = some s) (hr : gc.rData = some r)
    (hch : gc.channelOpen = true)
    (hif : gc.initStiffFlag = false) (hmf : gc.massFlag = false) :
    (∃ v gc1, getResistingForce gc = some (v, gc1,
      [Event.send (s.set 0 (cmdCode .getForce)), Event.recv])) ∧
    (∃ m gc1, getTangentStiff gc = some (m, gc1,
      [Event.send (s.set 0 (cmdCode .getTangStiff)), Event.recv])) ∧
    (∃ m gc1, getInitialStiff gc = some (m, gc1,
      [Event.send (s.set 0 (cmdCode .getInitStiff)), Event.recv])) ∧
    (∃ m gc1, getDamp env gc = some (m, gc1,
      [Event.send (s.set 0 (cmdCode .getDampCmd)), Event.recv])) ∧
    (∃ m gc1, getMass gc = some (m, gc1,
      [Event.send (s.set 0 (cmdCode .getMassCmd)), Event.recv])) ∧
    (∃ gc1, commitState gc = some (0, gc1,
      [Event.send (s.set 0 (cmdCode .commitState))])) :=
  ⟨⟨_, _, getResistingForce_eq gc s r hs hr hch⟩,
   ⟨_, _, getTangentStiff_eq gc s r hs hr hch⟩,
   ⟨_, _, getInitialStiff_uncached_eq gc s r hif hs hr hch⟩,
   ⟨_, _, getDamp_eq env gc s r hs hr hch⟩,
   ⟨_, _, getMass_uncached_eq gc s r hmf hs hr hch⟩,
   ⟨_, commitState_eq gc s hs hch⟩⟩

/-- Application of `C5_amended_full_buffer_payload` at the connected
example element. -/
theorem C5_amended_full_buffer_payload_witness :
    (∃ v gc1, getResistingForce gcW = some (v, gc1,
      [Event.send ((vecZero 11).set 0 (cmdCode .getForce)), Event.recv])) ∧
    (∃ m gc1, getTangentStiff gcW = some (m, gc1,
      [Event.send ((vecZero 11).set 0 (cmdCode .getTangStiff)),
       Event.recv])) ∧
    (∃ m gc1, getInitialStiff gcW = some (m, gc1,
      [Event.send ((vecZero 11).set 0 (cmdCode .getInitStiff)),
       Event.recv])) ∧
    (∃ m gc1, getDamp envW gcW = some (m, gc1,
      [Event.send ((vecZero 11).set 0 (cmdCode .getDampCmd)),
       Event.recv])) ∧
    (∃ m gc1, getMass gcW = some (m, gc1,
      [Event.send ((vecZero 11).set 0 (cmdCode .getMassCmd)),
       Event.recv])) ∧
    (∃ gc1, commitState gcW = some (0, gc1,
      [Event.send ((vecZero 11).set 0 (cmdCode .commitState))])) :=
  C5_amended_full_buffer_payload envW gcW (vecZero 11) (vecZero 11)
    rfl rfl rfl rfl rfl

/-! ## Connection-lifecycle claims -/

theorem update_first_eq (env : Env) (gc : GC) (hok : env.connectOK = true)
    (hgc : gc.channelOpen = false) :
    update env gc =
      some (0,
        { gc with
          channelOpen := true,
          dataSize := agreedDataSize gc.dataSize gc.numBasicDOF,
          sData := some ((writeAt (writeAt (writeAt
            ((vecZero (agreedDataSize gc.dataSize gc.numBasicDOF).toNat).set
              (1 + 3 * gc.numBasicDOF) env.currentTime)
            1 (basicVec env.nodeTrialDisp gc.theDOF))
            (1 + gc.numBasicDOF) (basicVec env.nodeTrialVel gc.theDOF))
            (1 + 2 * gc.numBasicDOF)
            (basicVec env.nodeTrialAccel gc.theDOF)).set 0
              (cmdCode .setTrialResponse)),
          rData := some
            (vecZero (agreedDataSize gc.dataSize gc.numBasicDOF).toNat) },
        [Event.sendID [(gc.numBasicDOF : Int), gc.numBasicDOF,
           gc.numBasicDOF, 0, 1, 0, 0, 0, gc.numBasicDOF, 0,
           agreedDataSize gc.dataSize gc.numBasicDOF],
         Event.send ((writeAt (writeAt (writeAt
            ((vecZero (agreedDataSize gc.dataSize gc.numBasicDOF).toNat).set
              (1 + 3 * gc.numBasicDOF) env.currentTime)
            1 (basicVec env.nodeTrialDisp gc.theDOF))
            (1 + gc.numBasicDOF) (basicVec env.nodeTrialVel gc.theDOF))
            (1 + 2 * gc.numBasicDOF)
            (basicVec env.nodeTrialAccel gc.theDOF)).set 0
              (cmdCode .setTrialResponse))]) := by
  simp [update, setupConnection, hok, hgc]

theorem update_connected_eq (env : Env) (gc : GC) (s : Vec)
    (hch : gc.channelOpen = true) (hs : gc.sData = some s) :
    update env gc =
      some (0,
        { gc with
          sData := some ((writeAt (writeAt (writeAt
            (s.set (1 + 3 * gc.numBasicDOF) env.currentTime)
            1 (basicVec env.nodeTrialDisp gc.theDOF))
            (1 + gc.numBasicDOF) (basicVec env.nodeTrialVel gc.theDOF))
            (1 + 2 * gc.numBasicDOF)
            (basicVec env.nodeTrialAccel gc.theDOF)).set 0
              (cmdCode .setTrialResponse)) },
        [Event.send ((writeAt (writeAt (writeAt
            (s.set (1 + 3 * gc.numBasicDOF) env.currentTime)
            1 (basicVec env.nodeTrialDisp gc.theDOF))
            (1 + gc.numBasicDOF) (basicVec env.nodeTrialVel gc.theDOF))
            (1 + 2 * gc.numBasicDOF)
            (basicVec env.nodeTrialAccel gc.theDOF)).set 0
              (cmdCode .setTrialResponse))]) := by
  simp [update, hch, hs]

/-- C8: the Unconnected → Connected transition happens on the first
trial-state push.  Construction and domain attachment leave the
channel closed and the buffers unallocated; the first `update` on an
unconnected element opens the channel, sends the sizing handshake and
allocates both buffers, and only then sends `SET_TRIAL_RESPONSE` (the
handshake strictly precedes the trial send in the trace); a second
`update` reuses the connection — its trace is a single send with no
handshake. -/
theorem C8_lazy_connect (env : Env) (dof : List (List Nat)) (ds ar : Int)
    (orc : List (Option Vec)) (gc : GC)
    (hok : env.connectOK = true) (hgc : gc.channelOpen = false) :
    (initGC dof ds ar orc).channelOpen = false ∧
    (initGC dof ds ar orc).sData = none ∧
    (initGC dof ds ar orc).rData = none ∧
    (setDomain env (initGC dof ds ar orc)).channelOpen = false ∧
    (setDomain env (initGC dof ds ar orc)).sData = none ∧
    (∃ (gc1 : GC) (p q : Vec),
      update env gc = some (0, gc1,
        [Event.sendID [(gc.numBasicDOF : Int), gc.numBasicDOF,
           gc.numBasicDOF, 0, 1, 0, 0, 0, gc.numBasicDOF, 0,
           agreedDataSize gc.dataSize gc.numBasicDOF],
         Event.send p]) ∧
      gc1.channelOpen = true ∧ gc1.sData = some p ∧
      gc1.rData.isSome = true ∧
      p = q.set 0 (cmdCode .setTrialResponse) ∧
      (∃ gc2 p2, update env gc1 = some (0, gc2, [Event.send p2]) ∧
        gc2.channelOpen = true)) :=
  ⟨rfl, rfl, rfl, rfl, rfl,
   ⟨_, _, _, update_first_eq env gc hok hgc, rfl, rfl, rfl, rfl,
    ⟨_, _, update_connected_eq env _ _ rfl rfl, rfl⟩⟩⟩

/-- Application of `C8_lazy_connect`: the worked-example element,
freshly attached and never connected. -/
theorem C8_lazy_connect_witness :
    (initGC [[0, 1], [0]] 2 0 []).channelOpen = false ∧
    (initGC [[0, 1], [0]] 2 0 []).sData = none ∧
    (initGC [[0, 1], [0]] 2 0 []).rData = none ∧
    (setDomain envW (initGC [[0, 1], [0]] 2 0 [])).channelOpen = false ∧
    (setDomain envW (initGC [[0, 1], [0]] 2 0 [])).sData = none ∧
    (∃ (gc1 : GC) (p q : Vec),
      update envW (setDomain envW (initGC [[0, 1], [0]] 2 0 [])) =
        some (0, gc1,
        [Event.sendID
           [((setDomain envW (initGC [[0, 1], [0]] 2 0 [])).numBasicDOF : Int),
            (setDomain envW (initGC [[0, 1], [0]] 2 0 [])).numBasicDOF,
            (setDomain envW (initGC [[0, 1], [0]] 2 0 [])).numBasicDOF,
            0, 1, 0, 0, 0,
            (setDomain envW (initGC [[0, 1], [0]] 2 0 [])).numBasicDOF, 0,
            agreedDataSize
              (setDomain envW (initGC [[0, 1], [0]] 2 0 [])).dataSize
              (setDomain envW (initGC [[0, 1], [0]] 2 0 [])).numBasicDOF],
         Event.send p]) ∧
      gc1.channelOpen = true ∧ gc1.sData = some p ∧
      gc1.rData.isSome = true ∧
      p = q.set 0 (cmdCode .setTrialResponse) ∧
      (∃ gc2 p2, update envW gc1 = some (0, gc2, [Event.send p2]) ∧
        gc2.channelOpen = true)) :=
  C8_lazy_connect envW [[0, 1], [0]] 2 0 []
    (setDomain envW (initGC [[0, 1], [0]] 2 0 [])) rfl rfl

/-! ## Shared-container claim -/

theorem getResistingForceIncInertia_shape (env : Env) (gc : GC) (s r : Vec)
    (hs : gc.sData = some s) (hr : gc.rData = some r)
    (hch : gc.channelOpen = true) :
    ∃ v gc1 e, getResistingForceIncInertia env gc = some (v, gc1, e) ∧
      gc1.theVector = v ∧ gc1.theInitStiff = gc.theInitStiff := by
  unfold getResistingForceIncInertia
  rw [getResistingForce_eq gc s r hs hr hch]
  cases hmf : gc.massFlag with
  | true =>
    simp only [Option.bind_eq_bind, Option.some_bind, hmf, if_true, getDamp,
      hch, Option.map_some, ite_true]
    exact ⟨_, _, _, rfl, rfl, rfl⟩
  | false =>
    simp only [Option.bind_eq_bind, Option.some_bind, hmf,
      Bool.false_eq_true, if_false, getMass, getDamp, hch,
      Option.map_some, Option.some_bind, ite_true, ite_false]
    exact ⟨_, _, _, rfl, rfl, rfl⟩

/-- C10: frame effects of the getters.  `getTangentStiff` and
`getDamp` both store their result in the one shared full-space matrix
`theMatrix` (so a later call to one overwrites the matrix left by the
other), and `getResistingForce` and `getResistingForceIncInertia`
both store into the one shared full-space vector `theVector`; the
dedicated containers `theInitStiff` and `theMass` are untouched by
`getTangentStiff`, `getDamp` and `getResistingForce`, and
`getResistingForceIncInertia` leaves `theInitStiff` untouched. -/
theorem C10_shared_containers (env : Env) (gc : GC) (s r : Vec)
    (hs : gc.sData = some s) (hr : gc.rData = some r)
    (hch : gc.channelOpen = true) :
    (∃ m gc1 e, getTangentStiff gc = some (m, gc1, e) ∧
      gc1.theMatrix = m ∧ gc1.theInitStiff = gc.theInitStiff ∧
      gc1.theMass = gc.theMass ∧ gc1.theVector = gc.theVector) ∧
    (∃ m gc1 e, getDamp env gc = some (m, gc1, e) ∧
      gc1.theMatrix = m ∧ gc1.theInitStiff = gc.theInitStiff ∧
      gc1.theMass = gc.theMass ∧ gc1.theVector = gc.theVector) ∧
    (∃ v gc1 e, getResistingForce gc = some (v, gc1, e) ∧
      gc1.theVector = v ∧ gc1.theMatrix = gc.theMatrix ∧
      gc1.theInitStiff = gc.theInitStiff ∧ gc1.theMass = gc.theMass) ∧
    (∃ mT gc1 e1 mD gc2 e2, getTangentStiff gc = some (mT, gc1, e1) ∧
      getDamp env gc1 = some (mD, gc2, e2) ∧ gc2.theMatrix = mD) ∧
    (∃ v1 g1 e1 v2 g2 e2, getResistingForce gc = some (v1, g1, e1) ∧
      getResistingForceIncInertia env g1 = some (v2, g2, e2) ∧
      g2.theVector = v2) ∧
    (∃ v gc1 e, getResistingForceIncInertia env gc = some (v, gc1, e) ∧
      gc1.theVector = v ∧ gc1.theInitStiff = gc.theInitStiff) := by
  obtain ⟨v2, g2, e2, hInc2, hv2, _⟩ :=
    getResistingForceIncInertia_shape env
      { gc with
        theVector := vecAssemble (vecZero gc.numDOF)
          ((recvData gc.dataSize.toNat r (popO gc.oracle).1).take
            gc.numBasicDOF) gc.basicDOF,
        sData := some (s.set 0 (cmdCode .getForce)),
        rData := some (recvData gc.dataSize.toNat r (popO gc.oracle).1),
        oracle := (popO gc.oracle).2,
        dbCtrl := ((s.set 0 (cmdCode .getForce)).drop 1).take gc.numBasicDOF,
        vbCtrl := ((s.set 0 (cmdCode .getForce)).drop
          (1 + gc.numBasicDOF)).take gc.numBasicDOF,
        abCtrl := ((s.set 0 (cmdCode .getForce)).drop
          (1 + 2 * gc.numBasicDOF)).take gc.numBasicDOF }
      _ _ rfl rfl hch
  obtain ⟨v3, g3, e3, hInc3, hv3, hIS3⟩ :=
    getResistingForceIncInertia_shape env gc s r hs hr hch
  exact
    ⟨⟨_, _, _, getTangentStiff_eq gc s r hs hr hch, rfl, rfl, rfl, rfl⟩,
     ⟨_, _, _, getDamp_eq env gc s r hs hr hch, rfl, rfl, rfl, rfl⟩,
     ⟨_, _, _, getResistingForce_eq gc s r hs hr hch, rfl, rfl, rfl, rfl⟩,
     ⟨_, _, _, _, _, _, getTangentStiff_eq gc s r hs hr hch,
      getDamp_eq env _ _ _ rfl rfl hch, rfl⟩,
     ⟨_, _, _, v2, g2, e2, getResistingForce_eq gc s r hs hr hch,
      hInc2, hv2⟩,
     ⟨v3, g3, e3, hInc3, hv3, hIS3⟩⟩

/-- Application of `C10_shared_containers` at the connected example
element. -/
theorem C10_shared_containers_witness :
    (∃ m gc1 e, getTangentStiff gcW = some (m, gc1, e) ∧
      gc1.theMatrix = m ∧ gc1.theInitStiff = gcW.theInitStiff ∧
      gc1.theMass = gcW.theMass ∧ gc1.theVector = gcW.theVector) ∧
    (∃ m gc1 e, getDamp envW gcW = some (m, gc1, e) ∧
      gc1.theMatrix = m ∧ gc1.theInitStiff = gcW.theInitStiff ∧
      gc1.theMass = gcW.theMass ∧ gc1.theVector = gcW.theVector) ∧
    (∃ v gc1 e, getResistingForce gcW = some (v, gc1, e) ∧
      gc1.theVector = v ∧ gc1.theMatrix = gcW.theMatrix ∧
      gc1.theInitStiff = gcW.theInitStiff ∧ gc1.theMass = gcW.theMass) ∧
    (∃ mT gc1 e1 mD gc2 e2, getTangentStiff gcW = some (mT, gc1, e1) ∧
      getDamp envW gc1 = some (mD, gc2, e2) ∧ gc2.theMatrix = mD) ∧
    (∃ v1 g1 e1 v2 g2 e2, getResistingForce gcW = some (v1, g1, e1) ∧
      getResistingForceIncInertia envW g1 = some (v2, g2, e2) ∧
      g2.theVector = v2) ∧
    (∃ v gc1 e, getResistingForceIncInertia envW gcW = some (v, gc1, e) ∧
      gc1.theVector = v ∧ gc1.theInitStiff = gcW.theInitStiff) :=
  C10_shared_containers envW gcW (vecZero 11) (vecZero 11) rfl rfl rfl

end GenericClient
